import Mathlib

/-!
A shallow embedding of `src/packages/indexer-service/src/commands/start.ts`,
the start command of the indexer service.  The file declares a yargs command:
a builder that registers CLI options and demands four of them, and an async
handler that connects to the database, creates a state-channel client, queries
the free balance, registers a handler echoing each unlocked inbound payment
back to its sender after a 1000 ms delay, and starts an express server with a
single GET route at the root path.

Pure values (option declarations, transfer parameters, the route response) are
embedded as Lean values; awaited external calls are embedded by passing their
outcomes in explicitly (an `Except` per call); the event callback and its
deferred body become functions from those outcomes to the logs and actions
they produce, and the handler becomes a trace function recording its external
actions in program order.
-/

namespace IndexerService

/-- The zero address, `AddressZero` from ethers, denoting the native asset. -/
def AddressZero : String := "0x0000000000000000000000000000000000000000"

/-- The event name `EventNames.CONDITIONAL_TRANSFER_UNLOCKED_EVENT` from
connext types, as subscribed on line 103 of start.ts. -/
def CONDITIONAL_TRANSFER_UNLOCKED_EVENT : String :=
  "CONDITIONAL_TRANSFER_UNLOCKED_EVENT"

/-- The `meta` field of a signed-transfer-unlocked payload; the handler reads
only its `sender`. -/
structure TransferMeta where
  sender : String
  deriving DecidableEq

/-- The payload `EventPayloads.SignedTransferUnlocked` as the callback reads
it: a payment identifier, an amount (a big number, embedded as an unbounded
integer), and the metadata carrying the sender. -/
structure SignedTransferUnlocked where
  paymentId : String
  amount : Int
  meta : TransferMeta
  deriving DecidableEq

/-- The argument object passed to `client.transfer` on lines 115-119 of
start.ts: an amount, a recipient, and an asset identifier. -/
structure TransferParams where
  amount : Int
  recipient : String
  assetId : String
  deriving DecidableEq

/-- The response of `client.transfer`; the callback reads only `paymentId`. -/
structure TransferResponse where
  paymentId : String
  deriving DecidableEq

/-- The state-channel client as the echo responder and the server use it:
its signer data and its `transfer` call, whose outcome is either a response
or a thrown error message. -/
structure StateChannelClient where
  freeBalanceAddress : String
  publicIdentifier : String
  transfer : TransferParams → Except String TransferResponse

/-- Log lines emitted by the event callback, keeping the data interpolated
into each message of start.ts lines 108-126. -/
inductive LogLine where
  | receivedPayment (paymentId : String) (amount : Int) (sender : String)
  | sendBack (amount : Int) (sender : String)
  | sentBack (amount : Int) (sender : String) (paymentId : String)
  | failedSend (sender : String) (message : String)
  deriving DecidableEq

/-- The transfer request built inside the deferred callback (start.ts lines
115-119): the amount copied from the event, the recipient set to the event's
sender, and the asset identifier fixed to `AddressZero`. -/
def transferParamsOf (data : SignedTransferUnlocked) : TransferParams :=
  ⟨data.amount, data.meta.sender, AddressZero⟩

/-- The async callback passed to `setTimeout` on lines 112-128 of start.ts.
The try block logs the send, awaits `client.transfer`, and logs the response
payment identifier; the catch block logs the failure with the sender.  The
try/catch becomes a match on the transfer outcome, so the function is total:
every outcome yields a plain list of log lines. -/
def setTimeoutCallback (client : StateChannelClient)
    (data : SignedTransferUnlocked) : List LogLine :=
  match client.transfer (transferParamsOf data) with
  | .ok response =>
      [LogLine.sendBack data.amount data.meta.sender,
       LogLine.sentBack data.amount data.meta.sender response.paymentId]
  | .error e =>
      [LogLine.sendBack data.amount data.meta.sender,
       LogLine.failedSend data.meta.sender e]

/-- The deferred task created by `setTimeout(..., 1000)`: the delay in
milliseconds and the captured event payload. -/
structure ScheduledTask where
  delayMs : Nat
  data : SignedTransferUnlocked
  deriving DecidableEq

/-- The `client.on` callback (start.ts lines 102-130): it logs the received
payment and schedules the deferred echo task with a 1000 ms delay. -/
def onConditionalTransferUnlocked (data : SignedTransferUnlocked) :
    LogLine × ScheduledTask :=
  (LogLine.receivedPayment data.paymentId data.amount data.meta.sender,
   ⟨1000, data⟩)

/-- Observable actions while one inbound event is handled. -/
inductive EventAction where
  | log (line : LogLine)
  | transferCall (params : TransferParams)
  | transferOk (response : TransferResponse)
  | transferFailed (message : String)
  deriving DecidableEq

/-- The timed trace of handling one inbound event delivered at time `t0`:
the receipt log at `t0`, then, once the 1000 ms timer fires, the send log,
the transfer submission, its resolution, and the final log, in the order the
callback body executes them. -/
def eventTimeline (client : StateChannelClient) (t0 : Nat)
    (data : SignedTransferUnlocked) : List (Nat × EventAction) :=
  (t0, EventAction.log
        (LogLine.receivedPayment data.paymentId data.amount data.meta.sender)) ::
  (t0 + 1000, EventAction.log (LogLine.sendBack data.amount data.meta.sender)) ::
  (t0 + 1000, EventAction.transferCall (transferParamsOf data)) ::
  match client.transfer (transferParamsOf data) with
  | .ok response =>
      [(t0 + 1000, EventAction.transferOk response),
       (t0 + 1000, EventAction.log
          (LogLine.sentBack data.amount data.meta.sender response.paymentId))]
  | .error e =>
      [(t0 + 1000, EventAction.transferFailed e),
       (t0 + 1000, EventAction.log (LogLine.failedSend data.meta.sender e))]

/-- Extracts a transfer submission, with its timestamp, from a trace entry. -/
def submissionOf : Nat × EventAction → Option (Nat × TransferParams)
  | (t, EventAction.transferCall p) => some (t, p)
  | _ => none

/-- The parsed CLI arguments as the handler reads them from `argv`
(yargs exposes the dashed option names in camelCase).  Options the builder
demands are plain values; the rest are optional, except the two numeric
options, which always carry a value because the builder declares defaults. -/
structure Argv where
  mnemonic : String
  ethereum : String
  connextMessaging : Option String
  connextNode : String
  postgresHost : Option String
  postgresPort : Nat
  postgresUsername : Option String
  postgresPassword : Option String
  postgresDatabase : String
  port : Nat
  deriving DecidableEq

/-- Outcomes of the three awaited external calls of the handler, passed in
explicitly: `database.connect` (line 66), `stateChannels.createStateChannel`
(line 77), and `client.getFreeBalance(AddressZero)` (line 93).  The free
balance result stands for the entry of the returned mapping at the client's
free-balance address, the only entry the handler reads (line 94). -/
structure Env where
  connectResult : Except String Unit
  createStateChannelResult : Except String Unit
  getFreeBalanceResult : Except String Int

/-- The externally visible startup actions of the handler, each recording the
arguments the handler passes. -/
inductive StartupStep where
  | connectDatabase (host : Option String) (port : Nat)
      (username : Option String) (password : Option String) (database : String)
  | createStateChannel (mnemonic : String) (ethereumProvider : String)
      (connextMessaging : Option String) (connextNode : String)
  | getFreeBalance (assetId : String)
  | logFreeBalance (balance : Int)
  | registerHandler (eventName : String)
  | serverGetRoute (routePath : String)
  | serverListen (port : Nat)
  deriving DecidableEq

/-- The database connection step with the config of start.ts lines 66-73. -/
def connectStep (argv : Argv) : StartupStep :=
  StartupStep.connectDatabase argv.postgresHost argv.postgresPort
    argv.postgresUsername argv.postgresPassword argv.postgresDatabase

/-- The state-channel creation step with the config of start.ts lines 77-84. -/
def createStep (argv : Argv) : StartupStep :=
  StartupStep.createStateChannel argv.mnemonic argv.ethereum
    argv.connextMessaging argv.connextNode

/-- The start command handler (start.ts lines 60-149) as a trace function:
it records each awaited external call and each registration in program order
and stops at the first rejected await, returning the uncaught rejection
message.  A completed run connects to the database, creates the state
channel, queries and logs the free balance, registers the event handler,
installs the root route, and starts listening, in that order. -/
def handler (argv : Argv) (env : Env) : List StartupStep × Option String :=
  match env.connectResult with
  | .error e => ([connectStep argv], some e)
  | .ok _ =>
    match env.createStateChannelResult with
    | .error e => ([connectStep argv, createStep argv], some e)
    | .ok _ =>
      match env.getFreeBalanceResult with
      | .error e =>
          ([connectStep argv, createStep argv,
            StartupStep.getFreeBalance AddressZero], some e)
      | .ok balance =>
          ([connectStep argv, createStep argv,
            StartupStep.getFreeBalance AddressZero,
            StartupStep.logFreeBalance balance,
            StartupStep.registerHandler CONDITIONAL_TRANSFER_UNLOCKED_EVENT,
            StartupStep.serverGetRoute "/",
            StartupStep.serverListen argv.port], none)

/-- Checks whether a step is the free-balance log line. -/
def isBalanceLog : StartupStep → Bool
  | StartupStep.logFreeBalance _ => true
  | _ => false

/-- One yargs option declaration of the builder (start.ts lines 15-57):
its name, its declared type, and its declared default, if any. -/
structure OptionSpec where
  name : String
  typeName : String
  defaultValue : Option Nat
  deriving DecidableEq

/-- The ten options the builder declares, in source order. -/
def builderOptions : List OptionSpec :=
  [⟨"mnemonic", "string", none⟩,
   ⟨"ethereum", "string", none⟩,
   ⟨"connext-messaging", "string", none⟩,
   ⟨"connext-node", "string", none⟩,
   ⟨"postgres-host", "string", none⟩,
   ⟨"postgres-port", "number", some 5432⟩,
   ⟨"postgres-username", "string", none⟩,
   ⟨"postgres-password", "string", none⟩,
   ⟨"postgres-database", "string", none⟩,
   ⟨"port", "number", some 7600⟩]

/-- The demandOption list of the builder (start.ts line 58). -/
def demandedOptions : List String :=
  ["mnemonic", "ethereum", "connext-node", "postgres-database"]

/-- A raw invocation: which of the declared options were supplied, and with
what value. -/
structure CliInput where
  mnemonic : Option String
  ethereum : Option String
  connextMessaging : Option String
  connextNode : Option String
  postgresHost : Option String
  postgresPort : Option Nat
  postgresUsername : Option String
  postgresPassword : Option String
  postgresDatabase : Option String
  port : Option Nat
  deriving DecidableEq

/-- Modelled from the spec: the option resolution the external CLI library
performs for this builder (the library itself is not part of this
repository).  An invocation missing any option of the demandOption list is
rejected before the handler runs; otherwise the defaults declared by the
builder (5432 for postgres-port, 7600 for port) fill the absent defaulted
options and the handler's `argv` is produced. -/
def parseArgs (i : CliInput) : Option Argv :=
  match i.mnemonic, i.ethereum, i.connextNode, i.postgresDatabase with
  | some m, some eth, some node, some db =>
      some ⟨m, eth, i.connextMessaging, node, i.postgresHost,
            i.postgresPort.getD 5432, i.postgresUsername, i.postgresPassword,
            db, i.port.getD 7600⟩
  | _, _, _, _ => none

/-- Modelled from the spec: command dispatch — the handler runs only when
option resolution succeeded, so a rejected invocation performs none of the
handler's actions. -/
def runStart (i : CliInput) (env : Env) :
    Option (List StartupStep × Option String) :=
  (parseArgs i).map fun argv => handler argv env

/-- An HTTP request as the route matching sees it. -/
structure HttpRequest where
  method : String
  urlPath : String
  deriving DecidableEq

/-- An HTTP response: a status code and a body. -/
structure HttpResponse where
  status : Nat
  body : String
  deriving DecidableEq

/-- The express app built at the end of the handler (start.ts lines 142-146),
with the state-channel client in scope: one GET route at the root path whose
callback ignores the request and the client and answers 200 with the literal
readiness body. -/
def buildServer (client : StateChannelClient) (req : HttpRequest) :
    Option HttpResponse :=
  if req.method = "GET" ∧ req.urlPath = "/" then
    some ⟨200, "Ready to roll!"⟩
  else
    none

/-- Each delivered event spawns its own scheduled task: the `client.on`
callback runs once per delivery. -/
def scheduledTasks (events : List SignedTransferUnlocked) :
    List ScheduledTask :=
  events.map fun d => (onConditionalTransferUnlocked d).2

/-- Running every scheduled task once its timer fires. -/
def runTasks (client : StateChannelClient) (tasks : List ScheduledTask) :
    List (List LogLine) :=
  tasks.map fun t => setTimeoutCallback client t.data

/-- Sample event payload used to instantiate theorems that carry hypotheses. -/
def sampleEvent : SignedTransferUnlocked := ⟨"payment-1", 5, ⟨"0xSender"⟩⟩

/-- Sample client whose transfer call always succeeds with a fresh payment. -/
def okClient : StateChannelClient :=
  ⟨"0xFreeBalance", "xpub1", fun _ => Except.ok ⟨"payment-2"⟩⟩

/-- Sample client whose transfer call always fails. -/
def failingClient : StateChannelClient :=
  ⟨"0xFreeBalance", "xpub1", fun _ => Except.error "no funds"⟩

/-- A second sample event, with a different sender and amount. -/
def sampleEvent2 : SignedTransferUnlocked := ⟨"payment-3", 7, ⟨"0xOther"⟩⟩

/-- Sample client that fails exactly on transfers addressed to the first
sample sender and succeeds on every other transfer. -/
def mixedClient : StateChannelClient :=
  ⟨"0xFreeBalance", "xpub1", fun p =>
    if p.recipient = "0xSender" then Except.error "no funds"
    else Except.ok ⟨"payment-2"⟩⟩

/-- Sample parsed arguments. -/
def sampleArgv : Argv :=
  ⟨"word list", "http://eth", none, "http://node", none, 5432, none, none,
   "indexer", 7600⟩

/-- Sample environment in which every awaited call succeeds. -/
def okEnv : Env := ⟨Except.ok (), Except.ok (), Except.ok 42⟩

/-- Sample invocation supplying only the four demanded options. -/
def minimalInput : CliInput :=
  ⟨some "word list", some "http://eth", none, some "http://node", none, none,
   none, none, some "indexer", none⟩

/-- Sample invocation supplying no option at all. -/
def emptyInput : CliInput :=
  ⟨none, none, none, none, none, none, none, none, none, none⟩

/-- The arguments produced for the minimal invocation. -/
def minimalArgv : Argv :=
  ⟨"word list", "http://eth", none, "http://node", none, 5432, none, none,
   "indexer", 7600⟩

/-- C1: for every inbound conditional-transfer-unlocked event carrying amount
A and sender S, the trace of handling it contains exactly one outbound
transfer submission, with amount A, recipient S, and the zero/native asset
identifier, and its timestamp is exactly the arrival time plus the fixed
1000 ms delay — never earlier. -/
theorem echo_submits_exactly_one_transfer_after_delay
    (client : StateChannelClient) (t0 : Nat) (data : SignedTransferUnlocked) :
    (eventTimeline client t0 data).filterMap submissionOf
      = [(t0 + 1000, ⟨data.amount, data.meta.sender, AddressZero⟩)] := by
  rcases h : client.transfer (transferParamsOf data) with r | e <;>
    unfold eventTimeline <;> rw [h] <;> simp [submissionOf, transferParamsOf]

/-- C10: the callback validates nothing: for every delivered event, whatever
its amount (zero or negative included, since the embedded amount ranges over
all integers), a task with the fixed 1000 ms delay is scheduled and the trace
submits exactly one transfer echoing that exact amount back to the event's
sender. -/
theorem no_validation_echoes_any_event
    (client : StateChannelClient) (data : SignedTransferUnlocked) :
    (onConditionalTransferUnlocked data).2 = ⟨1000, data⟩
    ∧ (eventTimeline client 0 data).filterMap submissionOf
        = [(1000, ⟨data.amount, data.meta.sender, AddressZero⟩)] := by
  refine ⟨rfl, ?_⟩
  rcases h : client.transfer (transferParamsOf data) with r | e <;>
    unfold eventTimeline <;> rw [h] <;> simp [submissionOf, transferParamsOf]

/-- C2: when the transfer submitted by the deferred callback fails, the
failure is caught inside the callback: the callback still returns a plain
list of log lines ending in a failure log naming the sender and the reason,
the trace contains exactly one transfer submission (no retry), and the trace
ends at that failure log — nothing further happens for the triggering
payment, and nothing propagates past the callback. -/
theorem transfer_failure_swallowed (client : StateChannelClient) (t0 : Nat)
    (data : SignedTransferUnlocked) (e : String)
    (h : client.transfer (transferParamsOf data) = Except.error e) :
    setTimeoutCallback client data
      = [LogLine.sendBack data.amount data.meta.sender,
         LogLine.failedSend data.meta.sender e]
    ∧ ((eventTimeline client t0 data).filterMap submissionOf).length = 1
    ∧ (eventTimeline client t0 data).getLast?
        = some (t0 + 1000,
            EventAction.log (LogLine.failedSend data.meta.sender e)) := by
  refine ⟨?_, ?_, ?_⟩
  · unfold setTimeoutCallback
    rw [h]
  · unfold eventTimeline
    rw [h]
    simp [submissionOf]
  · unfold eventTimeline
    rw [h]
    rfl

/-- Witness for C2 at a concrete event and an always-failing client. -/
theorem transfer_failure_swallowed_witness :
    failingClient.transfer (transferParamsOf sampleEvent)
        = Except.error "no funds"
    ∧ (setTimeoutCallback failingClient sampleEvent
        = [LogLine.sendBack 5 "0xSender",
           LogLine.failedSend "0xSender" "no funds"]
      ∧ ((eventTimeline failingClient 0 sampleEvent).filterMap
            submissionOf).length = 1
      ∧ (eventTimeline failingClient 0 sampleEvent).getLast?
          = some (1000,
              EventAction.log (LogLine.failedSend "0xSender" "no funds"))) :=
  ⟨rfl, transfer_failure_swallowed failingClient 0 sampleEvent "no funds" rfl⟩

/-- C4: within the handling of a single inbound event, every transfer
submission in the trace is timestamped exactly 1000 ms after the arrival time
and strictly after it (the fixed delay precedes the attempt), and the
attempt's resolution strictly precedes its log line: on success the
submission, the resolution carrying the response, and the log of the
response's payment identifier occur at strictly increasing positions of the
trace, and likewise on failure. -/
theorem delay_before_transfer_before_log (client : StateChannelClient)
    (t0 : Nat) (data : SignedTransferUnlocked) :
    (∀ t p, (t, EventAction.transferCall p) ∈ eventTimeline client t0 data →
        t = t0 + 1000 ∧ t0 < t)
    ∧ (∀ r, client.transfer (transferParamsOf data) = Except.ok r →
        List.Sublist
          [(t0 + 1000, EventAction.transferCall (transferParamsOf data)),
           (t0 + 1000, EventAction.transferOk r),
           (t0 + 1000, EventAction.log
              (LogLine.sentBack data.amount data.meta.sender r.paymentId))]
          (eventTimeline client t0 data))
    ∧ (∀ e, client.transfer (transferParamsOf data) = Except.error e →
        List.Sublist
          [(t0 + 1000, EventAction.transferCall (transferParamsOf data)),
           (t0 + 1000, EventAction.transferFailed e),
           (t0 + 1000, EventAction.log
              (LogLine.failedSend data.meta.sender e))]
          (eventTimeline client t0 data)) := by
  refine ⟨?_, ?_, ?_⟩
  · intro t p hmem
    rcases h : client.transfer (transferParamsOf data) with r | e <;>
      (unfold eventTimeline at hmem
       rw [h] at hmem
       simp at hmem
       obtain ⟨h1, h2⟩ := hmem
       omega)
  · intro r h
    unfold eventTimeline
    rw [h]
    exact List.Sublist.cons _ (List.Sublist.cons _ (List.Sublist.refl _))
  · intro e h
    unfold eventTimeline
    rw [h]
    exact List.Sublist.cons _ (List.Sublist.cons _ (List.Sublist.refl _))

/-- Witness for C4 at a concrete event, once with a succeeding client and
once with a failing one. -/
theorem delay_before_transfer_before_log_witness :
    ((1000 : Nat) = 0 + 1000 ∧ 0 < 1000)
    ∧ okClient.transfer (transferParamsOf sampleEvent)
        = Except.ok ⟨"payment-2"⟩
    ∧ List.Sublist
        [(0 + 1000, EventAction.transferCall (transferParamsOf sampleEvent)),
         (0 + 1000, EventAction.transferOk ⟨"payment-2"⟩),
         (0 + 1000, EventAction.log (LogLine.sentBack 5 "0xSender" "payment-2"))]
        (eventTimeline okClient 0 sampleEvent)
    ∧ failingClient.transfer (transferParamsOf sampleEvent)
        = Except.error "no funds"
    ∧ List.Sublist
        [(0 + 1000, EventAction.transferCall (transferParamsOf sampleEvent)),
         (0 + 1000, EventAction.transferFailed "no funds"),
         (0 + 1000, EventAction.log (LogLine.failedSend "0xSender" "no funds"))]
        (eventTimeline failingClient 0 sampleEvent) :=
  ⟨(delay_before_transfer_before_log okClient 0 sampleEvent).1 1000
      (transferParamsOf sampleEvent) (by decide),
   rfl,
   (delay_before_transfer_before_log okClient 0 sampleEvent).2.1
      ⟨"payment-2"⟩ rfl,
   rfl,
   (delay_before_transfer_before_log failingClient 0 sampleEvent).2.2
      "no funds" rfl⟩

/-- C3: startup performs connect, channel creation, balance query, handler
registration and server start in strict program order, and fails fast: when
the database connection rejects, the run stops with only the connect step
performed — in particular the state channel is never created and the server
never listens — and when channel creation rejects, the run stops right after
it, so the server never listens either. -/
theorem startup_order_and_fail_fast (argv : Argv) (e : String)
    (c : Except String Unit) (f : Except String Int) (b : Int) :
    handler argv ⟨Except.error e, c, f⟩ = ([connectStep argv], some e)
    ∧ (∀ m eth cm node, StartupStep.createStateChannel m eth cm node
          ∉ (handler argv ⟨Except.error e, c, f⟩).1)
    ∧ (∀ p, StartupStep.serverListen p ∉ (handler argv ⟨Except.error e, c, f⟩).1)
    ∧ handler argv ⟨Except.ok (), Except.error e, f⟩
        = ([connectStep argv, createStep argv], some e)
    ∧ (∀ p, StartupStep.serverListen p
          ∉ (handler argv ⟨Except.ok (), Except.error e, f⟩).1)
    ∧ handler argv ⟨Except.ok (), Except.ok (), Except.ok b⟩
        = ([connectStep argv, createStep argv,
            StartupStep.getFreeBalance AddressZero,
            StartupStep.logFreeBalance b,
            StartupStep.registerHandler CONDITIONAL_TRANSFER_UNLOCKED_EVENT,
            StartupStep.serverGetRoute "/",
            StartupStep.serverListen argv.port], none) := by
  refine ⟨rfl, ?_, ?_, rfl, ?_, rfl⟩
  · intro m eth cm node
    simp [handler, connectStep]
  · intro p
    simp [handler, connectStep]
  · intro p
    simp [handler, connectStep, createStep]

/-- C8: the free balance of the zero asset is queried exactly once per run,
after channel creation and before the event handler is registered; when the
query rejects, the run stops at it, before any handler registration and
before the server listens; and when it succeeds the returned balance is only
logged: erasing the balance log line leaves the traces of any two balances
identical. -/
theorem free_balance_once_and_only_logged (argv : Argv) (e : String)
    (b b1 b2 : Int) :
    ((handler argv ⟨Except.ok (), Except.ok (), Except.ok b⟩).1.count
        (StartupStep.getFreeBalance AddressZero) = 1)
    ∧ List.Sublist
        [createStep argv, StartupStep.getFreeBalance AddressZero,
         StartupStep.registerHandler CONDITIONAL_TRANSFER_UNLOCKED_EVENT]
        (handler argv ⟨Except.ok (), Except.ok (), Except.ok b⟩).1
    ∧ handler argv ⟨Except.ok (), Except.ok (), Except.error e⟩
        = ([connectStep argv, createStep argv,
            StartupStep.getFreeBalance AddressZero], some e)
    ∧ (∀ ev, StartupStep.registerHandler ev
          ∉ (handler argv ⟨Except.ok (), Except.ok (), Except.error e⟩).1)
    ∧ (∀ p, StartupStep.serverListen p
          ∉ (handler argv ⟨Except.ok (), Except.ok (), Except.error e⟩).1)
    ∧ ((handler argv ⟨Except.ok (), Except.ok (), Except.ok b1⟩).1.filter
          (fun s => ! isBalanceLog s))
        = ((handler argv ⟨Except.ok (), Except.ok (), Except.ok b2⟩).1.filter
          (fun s => ! isBalanceLog s)) := by
  refine ⟨?_, ?_, rfl, ?_, ?_, ?_⟩
  · simp [handler, connectStep, createStep, List.count_cons,
      CONDITIONAL_TRANSFER_UNLOCKED_EVENT, AddressZero]
  · show List.Sublist _
      [connectStep argv, createStep argv,
       StartupStep.getFreeBalance AddressZero, StartupStep.logFreeBalance b,
       StartupStep.registerHandler CONDITIONAL_TRANSFER_UNLOCKED_EVENT,
       StartupStep.serverGetRoute "/", StartupStep.serverListen argv.port]
    exact List.Sublist.cons _ (List.Sublist.cons₂ _ (List.Sublist.cons₂ _
      (List.Sublist.cons _ (List.Sublist.cons₂ _ (List.nil_sublist _)))))
  · intro ev
    simp [handler, connectStep, createStep]
  · intro p
    simp [handler, connectStep, createStep]
  · simp [handler, isBalanceLog, connectStep, createStep]

/-- C9: whenever a run's trace reaches the server-listen step, the
conditional-transfer-unlocked handler registration already appears earlier in
that trace: the subscription is in place before the server can serve any
request. -/
theorem handler_registered_before_listen (argv : Argv) (env : Env)
    (h : StartupStep.serverListen argv.port ∈ (handler argv env).1) :
    List.Sublist
      [StartupStep.registerHandler CONDITIONAL_TRANSFER_UNLOCKED_EVENT,
       StartupStep.serverListen argv.port]
      (handler argv env).1 := by
  obtain ⟨cr, sr, fr⟩ := env
  rcases cr with ec | uc
  · simp [handler, connectStep] at h
  · rcases sr with es | us
    · simp [handler, connectStep, createStep] at h
    · rcases fr with ef | bf
      · simp [handler, connectStep, createStep] at h
      · show List.Sublist _
          [connectStep argv, createStep argv,
           StartupStep.getFreeBalance AddressZero,
           StartupStep.logFreeBalance bf,
           StartupStep.registerHandler CONDITIONAL_TRANSFER_UNLOCKED_EVENT,
           StartupStep.serverGetRoute "/", StartupStep.serverListen argv.port]
        exact List.Sublist.cons _ (List.Sublist.cons _ (List.Sublist.cons _
          (List.Sublist.cons _ (List.Sublist.cons₂ _ (List.Sublist.cons _
            (List.Sublist.cons₂ _ (List.nil_sublist _)))))))

/-- Witness for C9 at concrete arguments and an all-successful environment. -/
theorem handler_registered_before_listen_witness :
    (StartupStep.serverListen sampleArgv.port ∈ (handler sampleArgv okEnv).1)
    ∧ List.Sublist
        [StartupStep.registerHandler CONDITIONAL_TRANSFER_UNLOCKED_EVENT,
         StartupStep.serverListen sampleArgv.port]
        (handler sampleArgv okEnv).1 :=
  ⟨by decide, handler_registered_before_listen sampleArgv okEnv (by decide)⟩

/-- C7: option resolution succeeds exactly when the four demanded options
(mnemonic, ethereum, connext-node, postgres-database) are all supplied — the
other declared options never matter for acceptance; the two declared defaults
are 5432 for postgres-port and 7600 for port and they fill the absent
options; and a rejected invocation runs none of the handler, so no connection
is ever attempted. -/
theorem cli_requires_four_and_defaults (i : CliInput) (env : Env) (a : Argv) :
    ((parseArgs i).isSome ↔
      (i.mnemonic.isSome ∧ i.ethereum.isSome ∧ i.connextNode.isSome
        ∧ i.postgresDatabase.isSome))
    ∧ (parseArgs i = some a →
        (i.postgresPort = none → a.postgresPort = 5432)
        ∧ (i.port = none → a.port = 7600))
    ∧ (parseArgs i = none → runStart i env = none)
    ∧ demandedOptions
        = ["mnemonic", "ethereum", "connext-node", "postgres-database"]
    ∧ (builderOptions.filterMap
          fun o => o.defaultValue.map fun d => (o.name, d))
        = [("postgres-port", 5432), ("port", 7600)] := by
  obtain ⟨m, eth, cm, node, ph, pp, pu, pw, db, po⟩ := i
  refine ⟨?_, ?_, ?_, rfl, rfl⟩
  · cases m <;> cases eth <;> cases node <;> cases db <;> simp [parseArgs]
  · intro h
    cases m <;> cases eth <;> cases node <;> cases db <;>
      simp [parseArgs] at h <;>
      (subst h
       exact ⟨fun hp => by simp at hp; simp [hp],
              fun hp => by simp at hp; simp [hp]⟩)
  · intro h
    simp [runStart, h]

/-- Witness for C7: the empty invocation is rejected and runs nothing; the
minimal invocation parses and receives both defaults. -/
theorem cli_requires_four_and_defaults_witness :
    parseArgs emptyInput = none
    ∧ runStart emptyInput okEnv = none
    ∧ parseArgs minimalInput = some minimalArgv
    ∧ minimalInput.postgresPort = none
    ∧ minimalInput.port = none
    ∧ minimalArgv.postgresPort = 5432
    ∧ minimalArgv.port = 7600 :=
  ⟨rfl,
   (cli_requires_four_and_defaults emptyInput okEnv minimalArgv).2.2.1 rfl,
   rfl, rfl, rfl,
   ((cli_requires_four_and_defaults minimalInput okEnv minimalArgv).2.1
      rfl).1 rfl,
   ((cli_requires_four_and_defaults minimalInput okEnv minimalArgv).2.1
      rfl).2 rfl⟩

/-- C6: the root route does not depend on the state-channel client — two
servers built over any two clients answer every request identically — and
every GET request for the root path receives status 200 with the exact body
of the readiness message. -/
theorem status_route_constant (c1 c2 : StateChannelClient)
    (req : HttpRequest) :
    buildServer c1 req = buildServer c2 req
    ∧ (∀ client : StateChannelClient,
        buildServer client ⟨"GET", "/"⟩ = some ⟨200, "Ready to roll!"⟩)
    ∧ (req.method = "GET" → req.urlPath = "/" →
        buildServer c1 req = some ⟨200, "Ready to roll!"⟩) := by
  refine ⟨rfl, fun _ => rfl, fun h1 h2 => ?_⟩
  simp [buildServer, h1, h2]

/-- Witness for C6 at a concrete GET request for the root path, over two
clients in different states. -/
theorem status_route_constant_witness :
    (HttpRequest.mk "GET" "/").method = "GET"
    ∧ (HttpRequest.mk "GET" "/").urlPath = "/"
    ∧ buildServer okClient ⟨"GET", "/"⟩ = some ⟨200, "Ready to roll!"⟩
    ∧ buildServer okClient ⟨"GET", "/"⟩ = buildServer failingClient ⟨"GET", "/"⟩ :=
  ⟨rfl, rfl,
   (status_route_constant okClient failingClient ⟨"GET", "/"⟩).2.2 rfl rfl,
   (status_route_constant okClient failingClient ⟨"GET", "/"⟩).1⟩

/-- C5: each delivered event spawns its own deferred task — two events yield
two tasks and two submissions, run independently: the outcome of one task is
a function of its own event and of the transfer outcome at its own request
only, so a failing submission for one event cannot change (block or cancel)
the other's, and distinct senders yield submissions to distinct recipients. -/
theorem independent_echo_tasks (client c1 c2 : StateChannelClient)
    (e1 e2 : SignedTransferUnlocked) :
    scheduledTasks [e1, e2] = [⟨1000, e1⟩, ⟨1000, e2⟩]
    ∧ runTasks client (scheduledTasks [e1, e2])
        = [setTimeoutCallback client e1, setTimeoutCallback client e2]
    ∧ (c1.transfer (transferParamsOf e2) = c2.transfer (transferParamsOf e2) →
        setTimeoutCallback c1 e2 = setTimeoutCallback c2 e2)
    ∧ (e1.meta.sender ≠ e2.meta.sender →
        (transferParamsOf e1).recipient ≠ (transferParamsOf e2).recipient) := by
  refine ⟨rfl, rfl, fun h => ?_, fun hne hEq => ?_⟩
  · unfold setTimeoutCallback
    rw [h]
  · simp [transferParamsOf] at hEq
    exact hne hEq

/-- Witness for C5: a client failing exactly on the first sample event's
request leaves the second event's echo identical to that of an
always-succeeding client, and the two sample submissions run side by side,
one failing and one succeeding. -/
theorem independent_echo_tasks_witness :
    mixedClient.transfer (transferParamsOf sampleEvent2)
        = okClient.transfer (transferParamsOf sampleEvent2)
    ∧ setTimeoutCallback mixedClient sampleEvent2
        = setTimeoutCallback okClient sampleEvent2
    ∧ sampleEvent.meta.sender ≠ sampleEvent2.meta.sender
    ∧ (transferParamsOf sampleEvent).recipient
        ≠ (transferParamsOf sampleEvent2).recipient
    ∧ scheduledTasks [sampleEvent, sampleEvent2]
        = [⟨1000, sampleEvent⟩, ⟨1000, sampleEvent2⟩]
    ∧ runTasks mixedClient (scheduledTasks [sampleEvent, sampleEvent2])
        = [[LogLine.sendBack 5 "0xSender",
            LogLine.failedSend "0xSender" "no funds"],
           [LogLine.sendBack 7 "0xOther",
            LogLine.sentBack 7 "0xOther" "payment-2"]] :=
  ⟨rfl,
   (independent_echo_tasks mixedClient mixedClient okClient sampleEvent
      sampleEvent2).2.2.1 rfl,
   by decide,
   (independent_echo_tasks mixedClient mixedClient okClient sampleEvent
      sampleEvent2).2.2.2 (by decide),
   (independent_echo_tasks mixedClient mixedClient okClient sampleEvent
      sampleEvent2).1,
   rfl⟩

end IndexerService
